import Mathlib

/-!
Shallow embedding of the DODONATION.YO registration and role-provisioning
core (src/core/models.py, src/core/forms.py, src/core/views.py).

The relational store is a `DB` record of rows; Django model saves become
explicit state transformations; the two `post_save` signal receivers on
`User` run inside `userSave` in connection order; form validation becomes
decidable predicates over the submission and the current store; the
`register` view becomes a function from a store and a submission to the
new store plus an outcome (redirect, re-render with messages, or an
uncaught exception escaping the view).  A `fault` flag injects a
persistence failure at the profile write inside the `save_user_profile`
signal, to reason about the failure-propagation behaviour of the
Profile Provisioner.
-/

namespace DoDonation

/-- User.Role (models.py 13-16): text choices DONOR / RECEIVER / ADMIN. -/
inductive Role
  | DONOR
  | RECEIVER
  | ADMIN
deriving DecidableEq, Repr

/-- Stored value of each Role member. -/
def Role.value : Role → String
  | .DONOR => "DONOR"
  | .RECEIVER => "RECEIVER"
  | .ADMIN => "ADMIN"

/-- A row of the custom User table (models.py 8-21).  `passwordHash`
abstracts the hash `set_password` computes from the raw password. -/
structure UserRec where
  id : Nat
  username : String
  email : String
  role : Role
  passwordHash : String
deriving DecidableEq, Repr

/-- A DonorProfile row (models.py 23-36): one-to-one with User via the
primary key `userId`; the three character fields are nullable
(`null=True`), so the auto-created row holds `none` in each. -/
structure DonorProfile where
  userId : Nat
  first_name : Option String
  last_name : Option String
  phone_number : Option String
deriving DecidableEq, Repr

/-- A ReceiverProfile row (models.py 38-53): `ngo_name` and the unique
`registration_number` are non-null character fields (database default is
the empty string), `phone_number` is nullable, `is_verified` defaults to
false. -/
structure ReceiverProfile where
  userId : Nat
  ngo_name : String
  registration_number : String
  phone_number : Option String
  is_verified : Bool
deriving DecidableEq, Repr

/-- The relational store restricted to the tables the registration flow
touches.  `nextId` models the auto-increment primary-key sequence of the
User table. -/
structure DB where
  nextId : Nat
  users : List UserRec
  donorProfiles : List DonorProfile
  receiverProfiles : List ReceiverProfile
deriving DecidableEq, Repr

/-- One POST submission to the register view.  The donor form reads
`first_name`, `last_name`, `phone_number`; the receiver form reads
`ngo_name`, `registration_number`, `phone_number` — the `phone_number`
key is shared because both forms parse the same POST data
(views.py 24-26, forms.py 37, 52). -/
structure Submission where
  username : String
  email : String
  password : String
  password2 : String
  role : Role
  first_name : Option String
  last_name : Option String
  phone_number : Option String
  ngo_name : String
  registration_number : String
deriving DecidableEq, Repr

def optLen : Option String → Nat
  | none => 0
  | some s => s.length

/-- UserRegistrationForm.is_valid (forms.py 5-27): required username of
at most 150 characters that is unique among existing users, required
matching password pair.  Email format checking is abstracted away
(AbstractUser.email is blank-allowed). -/
def userFormValid (db : DB) (s : Submission) : Bool :=
  s.username != "" &&
  decide (s.username.length ≤ 150) &&
  db.users.all (fun u => u.username != s.username) &&
  s.password != "" &&
  s.password2 != "" &&
  s.password == s.password2

/-- DonorProfileForm.is_valid (forms.py 30-42): every field is optional
(`blank=True, null=True`), so only the model max_length bounds
(models.py 30-32) can fail. -/
def donorFormValid (s : Submission) : Bool :=
  decide (optLen s.first_name ≤ 100) &&
  decide (optLen s.last_name ≤ 100) &&
  decide (optLen s.phone_number ≤ 20)

/-- ReceiverProfileForm.is_valid (forms.py 45-57): `ngo_name` and
`registration_number` are required with their max_length bounds
(models.py 44-48), and the unique validation of the ModelForm rejects a
`registration_number` already present in the store. -/
def receiverFormValid (db : DB) (s : Submission) : Bool :=
  s.ngo_name != "" &&
  decide (s.ngo_name.length ≤ 255) &&
  s.registration_number != "" &&
  decide (s.registration_number.length ≤ 100) &&
  decide (optLen s.phone_number ≤ 20) &&
  db.receiverProfiles.all (fun p => p.registration_number != s.registration_number)

/-- create_user_profile signal (models.py 58-64): on creation only,
insert an empty profile matching the role of the user; ADMIN gets none.
The auto-created ReceiverProfile carries the non-null defaults
`ngo_name = ""`, `registration_number = ""`, `is_verified = false`. -/
def create_user_profile (db : DB) (u : UserRec) (created : Bool) : DB :=
  if created then
    match u.role with
    | .DONOR =>
      { db with donorProfiles := db.donorProfiles ++ [⟨u.id, none, none, none⟩] }
    | .RECEIVER =>
      { db with receiverProfiles := db.receiverProfiles ++ [⟨u.id, "", "", none, false⟩] }
    | .ADMIN => db
  else db

/-- save_user_profile signal (models.py 66-76): look up the
role-appropriate profile and save it again (an UPDATE of the row with
its current values).  A missing profile (DoesNotExist) is swallowed;
any other persistence failure during the save — injected here by
`fault` — raises, returning `Except.error`. -/
def save_user_profile (fault : Bool) (db : DB) (u : UserRec) : Except Unit DB :=
  match u.role with
  | .DONOR =>
    match db.donorProfiles.find? (fun p => p.userId == u.id) with
    | some p =>
      if fault then .error ()
      else .ok { db with donorProfiles :=
        db.donorProfiles.map (fun q => if q.userId == u.id then p else q) }
    | none => .ok db
  | .RECEIVER =>
    match db.receiverProfiles.find? (fun p => p.userId == u.id) with
    | some p =>
      if fault then .error ()
      else .ok { db with receiverProfiles :=
        db.receiverProfiles.map (fun q => if q.userId == u.id then p else q) }
    | none => .ok db
  | .ADMIN => .ok db

/-- User.save(): write the row, then fire the two post_save receivers in
connection order (create_user_profile first, then save_user_profile).
Each row write commits individually (no surrounding transaction, spec §5),
so when the second signal raises, the writes made so far stay committed:
the error carries the state at the point the exception escaped. -/
def userSave (fault : Bool) (db : DB) (u : UserRec) (created : Bool) : Except DB DB :=
  let db1 :=
    if created then
      { db with users := db.users ++ [u], nextId := db.nextId + 1 }
    else
      { db with users := db.users.map (fun v => if v.id == u.id then u else v) }
  let db2 := create_user_profile db1 u created
  match save_user_profile fault db2 u with
  | .ok db3 => .ok db3
  | .error _ => .error db2

/-- DonorProfile.save() on a form-built instance whose primary key was
set to the user (views.py 39-41): UPDATE the existing row with that key,
or INSERT when none exists. -/
def donorProfileSave (db : DB) (p : DonorProfile) : DB :=
  if db.donorProfiles.any (fun q => q.userId == p.userId) then
    { db with donorProfiles :=
      db.donorProfiles.map (fun q => if q.userId == p.userId then p else q) }
  else
    { db with donorProfiles := db.donorProfiles ++ [p] }

/-- ReceiverProfile.save() on a form-built instance (views.py 46-48). -/
def receiverProfileSave (db : DB) (p : ReceiverProfile) : DB :=
  if db.receiverProfiles.any (fun q => q.userId == p.userId) then
    { db with receiverProfiles :=
      db.receiverProfiles.map (fun q => if q.userId == p.userId then p else q) }
  else
    { db with receiverProfiles := db.receiverProfiles ++ [p] }

/-- user.delete() (views.py 57, 70): remove the User row; the CASCADE
one-to-one deletes any profile row keyed by the same user. -/
def userDelete (db : DB) (uid : Nat) : DB :=
  { db with
    users := db.users.filter (fun v => v.id != uid),
    donorProfiles := db.donorProfiles.filter (fun q => q.userId != uid),
    receiverProfiles := db.receiverProfiles.filter (fun q => q.userId != uid) }

/-- The user-facing messages the register view can emit (views.py
42, 49, 60, 62, 64, 71, 75). -/
inductive Msg
  | successDonor
  | successReceiver
  | errorDonorProfile
  | errorReceiverProfile
  | errorProfileGeneric
  | errorUnexpected
  | errorAccount
deriving DecidableEq, Repr

/-- Outcome of one POST to the register view: a redirect to index on
success, a re-render of the form with a message, or an exception that
escaped the view uncaught. -/
inductive Outcome
  | redirectIndex (m : Msg)
  | renderForm (m : Msg)
  | crash
deriving DecidableEq, Repr

/-- The User instance built by `user_form.save(commit=False)` followed by
`set_password` (views.py 31-32); the primary key the insert will assign
is the sequence value. -/
def mkUser (db : DB) (s : Submission) : UserRec :=
  { id := db.nextId
    username := s.username
    email := s.email
    role := s.role
    passwordHash := s.password }

/-- The register view on a POST (views.py 22-89).  Control flow follows
the source: validate the user form; save the User (firing both signals —
this call sits before the try block, so a signal exception escapes
uncaught); inside the try block, branch on role and profile-form
validity, updating the auto-created profile on success and deleting the
just-created User otherwise. -/
def register (fault : Bool) (db : DB) (s : Submission) : DB × Outcome :=
  if userFormValid db s then
    let u := mkUser db s
    match userSave fault db u true with
    | .error dbc => (dbc, .crash)
    | .ok db1 =>
      if s.role == .DONOR && donorFormValid s then
        (donorProfileSave db1 ⟨u.id, s.first_name, s.last_name, s.phone_number⟩,
         .redirectIndex .successDonor)
      else if s.role == .RECEIVER && receiverFormValid db1 s then
        (receiverProfileSave db1
           ⟨u.id, s.ngo_name, s.registration_number, s.phone_number, false⟩,
         .redirectIndex .successReceiver)
      else
        let db2 := userDelete db1 u.id
        if s.role == .DONOR then (db2, .renderForm .errorDonorProfile)
        else if s.role == .RECEIVER then (db2, .renderForm .errorReceiverProfile)
        else (db2, .renderForm .errorProfileGeneric)
  else
    (db, .renderForm .errorAccount)

/-- The DonorProfile rows belonging to a user. -/
def donorProfilesFor (db : DB) (uid : Nat) : List DonorProfile :=
  db.donorProfiles.filter (fun p => p.userId == uid)

/-- The ReceiverProfile rows belonging to a user. -/
def receiverProfilesFor (db : DB) (uid : Nat) : List ReceiverProfile :=
  db.receiverProfiles.filter (fun p => p.userId == uid)

/-- The role/profile invariant of spec §3. -/
def roleProfileInv (db : DB) : Prop :=
  ∀ u ∈ db.users,
    (u.role = .DONOR →
      (donorProfilesFor db u.id).length = 1 ∧ (receiverProfilesFor db u.id).length = 0) ∧
    (u.role = .RECEIVER →
      (receiverProfilesFor db u.id).length = 1 ∧ (donorProfilesFor db u.id).length = 0) ∧
    (u.role = .ADMIN →
      (donorProfilesFor db u.id).length = 0 ∧ (receiverProfilesFor db u.id).length = 0)

/-- Store well-formedness: the key of every row is below the primary-key
sequence value, so a freshly assigned id collides with nothing. -/
def dbWF (db : DB) : Prop :=
  (∀ u ∈ db.users, u.id < db.nextId) ∧
  (∀ p ∈ db.donorProfiles, p.userId < db.nextId) ∧
  (∀ p ∈ db.receiverProfiles, p.userId < db.nextId)

/-- One re-save of an already-persisted user: the re-save reaction of the
Profile Provisioner with no injected fault and `created = false`. -/
def resaveUser (db : DB) (u : UserRec) : DB :=
  match userSave false db u false with
  | .ok d => d
  | .error d => d

/-- Iterates n successive re-saves of the same user. -/
def resaveUserN : Nat → DB → UserRec → DB
  | 0, db, _ => db
  | n + 1, db, u => resaveUserN n (resaveUser db u) u

/-- DonationRequest.Status (models.py 117-121). -/
inductive DonationRequestStatus
  | PENDING
  | ACCEPTED
  | REJECTED
  | COLLECTED
deriving DecidableEq, Repr

/-- Stored (database) value of each DonationRequest.Status member,
exactly as written in models.py 117-121. -/
def DonationRequestStatus.value : DonationRequestStatus → String
  | .PENDING => "PENDING"
  | .ACCEPTED => "ACCEPTED"
  | .REJECTED => "REJECTJED"
  | .COLLECTED => "COLLECTED"

/-- Human-readable label of each DonationRequest.Status member. -/
def DonationRequestStatus.label : DonationRequestStatus → String
  | .PENDING => "Pending"
  | .ACCEPTED => "Accepted"
  | .REJECTED => "Rejected"
  | .COLLECTED => "Collected"

/-- The list of stored values of the DonationRequest status enumeration. -/
def donationRequestStatusValues : List String :=
  [DonationRequestStatus.value .PENDING,
   DonationRequestStatus.value .ACCEPTED,
   DonationRequestStatus.value .REJECTED,
   DonationRequestStatus.value .COLLECTED]

/-- The empty store. -/
def emptyDB : DB := ⟨0, [], [], []⟩

/-- A valid DONOR submission used as concrete witness input
(spec §8 scenario). -/
def subAlice : Submission :=
  { username := "alice", email := "a@x.com", password := "pw123456"
    password2 := "pw123456", role := .DONOR
    first_name := some "Alice", last_name := none, phone_number := none
    ngo_name := "", registration_number := "" }

/-- A valid RECEIVER submission used as concrete witness input. -/
def subNgo1 : Submission :=
  { username := "ngo1", email := "n1@x.com", password := "pw123456"
    password2 := "pw123456", role := .RECEIVER
    first_name := none, last_name := none, phone_number := none
    ngo_name := "Helping Hands", registration_number := "REG1" }

/-- A second RECEIVER submission reusing REG1 (spec §8 uniqueness
scenario). -/
def subNgo2 : Submission :=
  { username := "ngo2", email := "n2@x.com", password := "pw123456"
    password2 := "pw123456", role := .RECEIVER
    first_name := none, last_name := none, phone_number := none
    ngo_name := "Other NGO", registration_number := "REG1" }

/-- A RECEIVER submission with an empty ngo_name (invalid profile form,
spec §8 scenario). -/
def subNgoBad : Submission :=
  { username := "ngo1", email := "n1@x.com", password := "pw123456"
    password2 := "pw123456", role := .RECEIVER
    first_name := none, last_name := none, phone_number := none
    ngo_name := "", registration_number := "REG1" }

/-- A submission whose password confirmation does not match (invalid
account form). -/
def subBadPassword : Submission :=
  { username := "bob", email := "b@x.com", password := "pw123456"
    password2 := "different", role := .DONOR
    first_name := none, last_name := none, phone_number := none
    ngo_name := "", registration_number := "" }

/-- An ADMIN submission with valid account fields. -/
def subAdmin : Submission :=
  { username := "boss", email := "b@x.com", password := "pw123456"
    password2 := "pw123456", role := .ADMIN
    first_name := none, last_name := none, phone_number := none
    ngo_name := "", registration_number := "" }



instance (db : DB) : Decidable (roleProfileInv db) := by
  unfold roleProfileInv; infer_instance

instance (db : DB) : Decidable (dbWF db) := by
  unfold dbWF; infer_instance

theorem find?_append_singleton {α : Type} {p : α → Bool} {l : List α} {a : α}
    (hl : ∀ x ∈ l, p x = false) (ha : p a = true) :
    (l ++ [a]).find? p = some a := by
  rw [List.find?_append]
  have h0 : l.find? p = none := List.find?_eq_none.mpr (by intro x hx; simp [hl x hx])
  simp [h0, List.find?, ha]

theorem map_update_append_singleton {α : Type} {p : α → Bool} {l : List α} {a b : α}
    (hl : ∀ x ∈ l, p x = false) (ha : p a = true) :
    (l ++ [a]).map (fun x => if p x then b else x) = l ++ [b] := by
  rw [List.map_append]
  congr 1
  · have h1 : l.map (fun x => if p x then b else x) = l.map id :=
      List.map_congr_left (by intro x hx; simp [hl x hx])
    rw [h1, List.map_id]
  · simp [ha]

theorem filter_not_append_singleton {α : Type} {p : α → Bool} {l : List α} {a : α}
    (hl : ∀ x ∈ l, p x = false) (ha : p a = true) :
    (l ++ [a]).filter (fun x => !(p x)) = l := by
  rw [List.filter_append]
  have h1 : l.filter (fun x => !(p x)) = l :=
    List.filter_eq_self.mpr (by intro x hx; simp [hl x hx])
  simp [h1, List.filter, ha]

theorem filter_pos_append_singleton {α : Type} {p : α → Bool} {l : List α} {a : α}
    (hl : ∀ x ∈ l, p x = false) (ha : p a = true) :
    (l ++ [a]).filter p = [a] := by
  rw [List.filter_append]
  have h1 : l.filter p = [] :=
    List.filter_eq_nil_iff.mpr (by intro x hx; simp [hl x hx])
  simp [h1, List.filter, ha]

-- shape of userSave on a fresh DONOR user, no fault
theorem userSave_donor_shape (db : DB) (s : Submission)
    (hwf : dbWF db) (hrole : s.role = .DONOR) :
    userSave false db (mkUser db s) true =
      .ok ⟨db.nextId + 1, db.users ++ [mkUser db s],
           db.donorProfiles ++ [⟨db.nextId, none, none, none⟩],
           db.receiverProfiles⟩ := by
  have hne : ∀ p ∈ db.donorProfiles, (p.userId == db.nextId) = false := by
    intro p hp
    simp only [beq_eq_false_iff_ne, ne_eq]
    exact Nat.ne_of_lt (hwf.2.1 p hp)
  obtain ⟨un, em, pw, pw2, rl, fn, ln, ph, ngo, rn⟩ := s
  simp only at hrole
  subst hrole
  unfold userSave create_user_profile save_user_profile mkUser
  simp only [if_true]
  rw [find?_append_singleton (α := DonorProfile) (p := fun q => q.userId == db.nextId) hne (by simp)]
  simp only [Bool.false_eq_true, if_false]
  rw [map_update_append_singleton (α := DonorProfile) (p := fun q => q.userId == db.nextId) hne (by simp)]

-- shape of userSave on a fresh RECEIVER user, no fault
theorem userSave_receiver_shape (db : DB) (s : Submission)
    (hwf : dbWF db) (hrole : s.role = .RECEIVER) :
    userSave false db (mkUser db s) true =
      .ok ⟨db.nextId + 1, db.users ++ [mkUser db s],
           db.donorProfiles,
           db.receiverProfiles ++ [⟨db.nextId, "", "", none, false⟩]⟩ := by
  have hne : ∀ p ∈ db.receiverProfiles, (p.userId == db.nextId) = false := by
    intro p hp
    simp only [beq_eq_false_iff_ne, ne_eq]
    exact Nat.ne_of_lt (hwf.2.2 p hp)
  obtain ⟨un, em, pw, pw2, rl, fn, ln, ph, ngo, rn⟩ := s
  simp only at hrole
  subst hrole
  unfold userSave create_user_profile save_user_profile mkUser
  simp only [if_true]
  rw [find?_append_singleton (α := ReceiverProfile) (p := fun q => q.userId == db.nextId) hne
    (by simp)]
  simp only [Bool.false_eq_true, if_false]
  rw [map_update_append_singleton (α := ReceiverProfile) (p := fun q => q.userId == db.nextId) hne
    (by simp)]

-- shape of userSave on a fresh ADMIN user: no profile signal ever fires or faults
theorem userSave_admin_shape (f : Bool) (db : DB) (s : Submission)
    (hrole : s.role = .ADMIN) :
    userSave f db (mkUser db s) true =
      .ok ⟨db.nextId + 1, db.users ++ [mkUser db s],
           db.donorProfiles, db.receiverProfiles⟩ := by
  obtain ⟨un, em, pw, pw2, rl, fn, ln, ph, ngo, rn⟩ := s
  simp only at hrole
  subst hrole
  unfold userSave create_user_profile save_user_profile mkUser
  simp only [if_true]

-- shape of userSave on a fresh DONOR user when the profile re-save raises
theorem userSave_donor_fault (db : DB) (s : Submission)
    (hwf : dbWF db) (hrole : s.role = .DONOR) :
    userSave true db (mkUser db s) true =
      .error ⟨db.nextId + 1, db.users ++ [mkUser db s],
              db.donorProfiles ++ [⟨db.nextId, none, none, none⟩],
              db.receiverProfiles⟩ := by
  have hne : ∀ p ∈ db.donorProfiles, (p.userId == db.nextId) = false := by
    intro p hp
    simp only [beq_eq_false_iff_ne, ne_eq]
    exact Nat.ne_of_lt (hwf.2.1 p hp)
  obtain ⟨un, em, pw, pw2, rl, fn, ln, ph, ngo, rn⟩ := s
  simp only at hrole
  subst hrole
  unfold userSave create_user_profile save_user_profile mkUser
  simp only [if_true]
  rw [find?_append_singleton (α := DonorProfile) (p := fun q => q.userId == db.nextId) hne
    (by simp)]

-- shape of userSave on a fresh RECEIVER user when the profile re-save raises
theorem userSave_receiver_fault (db : DB) (s : Submission)
    (hwf : dbWF db) (hrole : s.role = .RECEIVER) :
    userSave true db (mkUser db s) true =
      .error ⟨db.nextId + 1, db.users ++ [mkUser db s],
              db.donorProfiles,
              db.receiverProfiles ++ [⟨db.nextId, "", "", none, false⟩]⟩ := by
  have hne : ∀ p ∈ db.receiverProfiles, (p.userId == db.nextId) = false := by
    intro p hp
    simp only [beq_eq_false_iff_ne, ne_eq]
    exact Nat.ne_of_lt (hwf.2.2 p hp)
  obtain ⟨un, em, pw, pw2, rl, fn, ln, ph, ngo, rn⟩ := s
  simp only at hrole
  subst hrole
  unfold userSave create_user_profile save_user_profile mkUser
  simp only [if_true]
  rw [find?_append_singleton (α := ReceiverProfile) (p := fun q => q.userId == db.nextId) hne
    (by simp)]

theorem filter_key_ne_all {α : Type} (k : α → Nat) (N : Nat) {l : List α}
    (hl : ∀ x ∈ l, k x ≠ N) : l.filter (fun x => k x != N) = l := by
  apply List.filter_eq_self.mpr
  intro x hx
  simpa using hl x hx

theorem filter_key_ne_append_singleton {α : Type} (k : α → Nat) (N : Nat) {l : List α} {a : α}
    (hl : ∀ x ∈ l, k x ≠ N) (ha : k a = N) :
    (l ++ [a]).filter (fun x => k x != N) = l := by
  rw [List.filter_append, filter_key_ne_all k N hl]
  simp [List.filter, ha]

theorem receiverFormValid_append_blank (d db : DB) (s : Submission) (p : ReceiverProfile)
    (hd : d.receiverProfiles = db.receiverProfiles ++ [p])
    (h0 : p.registration_number = "") :
    receiverFormValid d s = receiverFormValid db s := by
  unfold receiverFormValid
  rw [hd, List.all_append]
  by_cases hrn : s.registration_number = ""
  · simp [hrn]
  · have h1 : [p].all (fun q => q.registration_number != s.registration_number) = true := by
      simp [h0, bne_iff_ne]
      exact fun h => hrn h.symm
    rw [h1, Bool.and_true]

-- register when the account form is invalid: pure fall-through
theorem register_invalid_user (f : Bool) (db : DB) (s : Submission)
    (hv : userFormValid db s = false) :
    register f db s = (db, .renderForm .errorAccount) := by
  unfold register
  simp [hv]

-- register on a valid DONOR submission with a valid donor form
theorem register_donor_success (db : DB) (s : Submission)
    (hwf : dbWF db) (hv : userFormValid db s = true)
    (hrole : s.role = .DONOR) (hdf : donorFormValid s = true) :
    register false db s =
      (⟨db.nextId + 1, db.users ++ [mkUser db s],
        db.donorProfiles ++ [⟨db.nextId, s.first_name, s.last_name, s.phone_number⟩],
        db.receiverProfiles⟩,
       .redirectIndex .successDonor) := by
  have hne : ∀ p ∈ db.donorProfiles, (p.userId == db.nextId) = false := by
    intro p hp
    simp only [beq_eq_false_iff_ne, ne_eq]
    exact Nat.ne_of_lt (hwf.2.1 p hp)
  unfold register
  simp only [hv, if_true]
  rw [userSave_donor_shape db s hwf hrole]
  dsimp only
  simp only [hrole, hdf, (by decide : (Role.DONOR == Role.DONOR) = true), Bool.and_self, if_true]
  unfold donorProfileSave
  dsimp only
  simp only [show (mkUser db s).id = db.nextId from rfl]
  have hany : (db.donorProfiles ++
      [(⟨db.nextId, none, none, none⟩ : DonorProfile)]).any
      (fun q => q.userId == db.nextId) = true := by
    simp [List.any_append]
  rw [hany]
  simp only [if_true]
  rw [map_update_append_singleton (α := DonorProfile) (p := fun q => q.userId == db.nextId) hne
    (by simp)]

-- register on a valid RECEIVER submission with a valid receiver form
theorem register_receiver_success (db : DB) (s : Submission)
    (hwf : dbWF db) (hv : userFormValid db s = true)
    (hrole : s.role = .RECEIVER) (hrf : receiverFormValid db s = true) :
    register false db s =
      (⟨db.nextId + 1, db.users ++ [mkUser db s],
        db.donorProfiles,
        db.receiverProfiles ++
          [⟨db.nextId, s.ngo_name, s.registration_number, s.phone_number, false⟩]⟩,
       .redirectIndex .successReceiver) := by
  have hne : ∀ p ∈ db.receiverProfiles, (p.userId == db.nextId) = false := by
    intro p hp
    simp only [beq_eq_false_iff_ne, ne_eq]
    exact Nat.ne_of_lt (hwf.2.2 p hp)
  unfold register
  simp only [hv, if_true]
  rw [userSave_receiver_shape db s hwf hrole]
  dsimp only
  have htr : receiverFormValid
      ⟨db.nextId + 1, db.users ++ [mkUser db s], db.donorProfiles,
        db.receiverProfiles ++ [⟨db.nextId, "", "", none, false⟩]⟩ s
      = receiverFormValid db s :=
    receiverFormValid_append_blank _ db s ⟨db.nextId, "", "", none, false⟩ rfl rfl
  rw [htr]
  simp only [hrole, hrf, (by decide : (Role.RECEIVER == Role.DONOR) = false),
    (by decide : (Role.RECEIVER == Role.RECEIVER) = true),
    Bool.false_and, Bool.true_and, if_false, if_true]
  unfold receiverProfileSave
  dsimp only
  simp only [show (mkUser db s).id = db.nextId from rfl]
  have hany : ((db.receiverProfiles ++
      [(⟨db.nextId, "", "", none, false⟩ : ReceiverProfile)]).any
      (fun q => q.userId == db.nextId)) = true := by
    simp [List.any_append]
  rw [hany]
  simp only [if_true]
  rw [map_update_append_singleton (α := ReceiverProfile)
    (p := fun q => q.userId == db.nextId) hne (by simp)]
  rfl

-- register on a valid account but invalid DONOR profile form: full rollback
theorem register_donor_invalid (db : DB) (s : Submission)
    (hwf : dbWF db) (hv : userFormValid db s = true)
    (hrole : s.role = .DONOR) (hdf : donorFormValid s = false) :
    register false db s =
      ({db with nextId := db.nextId + 1}, .renderForm .errorDonorProfile) := by
  have hneu : ∀ v ∈ db.users, v.id ≠ db.nextId := by
    intro v hv2
    exact Nat.ne_of_lt (hwf.1 v hv2)
  have hned : ∀ p ∈ db.donorProfiles, p.userId ≠ db.nextId := by
    intro p hp
    exact Nat.ne_of_lt (hwf.2.1 p hp)
  have hner : ∀ p ∈ db.receiverProfiles, p.userId ≠ db.nextId := by
    intro p hp
    exact Nat.ne_of_lt (hwf.2.2 p hp)
  unfold register
  simp only [hv, if_true]
  rw [userSave_donor_shape db s hwf hrole]
  dsimp only
  simp only [hrole, hdf, (by decide : (Role.DONOR == Role.DONOR) = true),
    (by decide : (Role.DONOR == Role.RECEIVER) = false),
    Bool.and_false, Bool.false_and, if_false, if_true]
  unfold userDelete
  dsimp only
  simp only [show (mkUser db s).id = db.nextId from rfl]
  rw [filter_key_ne_append_singleton (α := UserRec) (k := fun v => v.id) (N := db.nextId)
    hneu rfl]
  rw [filter_key_ne_append_singleton (α := DonorProfile) (k := fun q => q.userId)
    (N := db.nextId) hned rfl]
  rw [filter_key_ne_all (α := ReceiverProfile) (k := fun q => q.userId) (N := db.nextId) hner]
  rfl

-- register on a valid account but invalid RECEIVER profile form: full rollback
theorem register_receiver_invalid (db : DB) (s : Submission)
    (hwf : dbWF db) (hv : userFormValid db s = true)
    (hrole : s.role = .RECEIVER) (hrf : receiverFormValid db s = false) :
    register false db s =
      ({db with nextId := db.nextId + 1}, .renderForm .errorReceiverProfile) := by
  have hneu : ∀ v ∈ db.users, v.id ≠ db.nextId := by
    intro v hv2
    exact Nat.ne_of_lt (hwf.1 v hv2)
  have hned : ∀ p ∈ db.donorProfiles, p.userId ≠ db.nextId := by
    intro p hp
    exact Nat.ne_of_lt (hwf.2.1 p hp)
  have hner : ∀ p ∈ db.receiverProfiles, p.userId ≠ db.nextId := by
    intro p hp
    exact Nat.ne_of_lt (hwf.2.2 p hp)
  unfold register
  simp only [hv, if_true]
  rw [userSave_receiver_shape db s hwf hrole]
  dsimp only
  have htr : receiverFormValid
      ⟨db.nextId + 1, db.users ++ [mkUser db s], db.donorProfiles,
        db.receiverProfiles ++ [⟨db.nextId, "", "", none, false⟩]⟩ s
      = receiverFormValid db s :=
    receiverFormValid_append_blank _ db s ⟨db.nextId, "", "", none, false⟩ rfl rfl
  rw [htr]
  simp only [hrole, hrf, (by decide : (Role.RECEIVER == Role.DONOR) = false),
    (by decide : (Role.RECEIVER == Role.RECEIVER) = true),
    Bool.false_and, Bool.true_and, Bool.and_false, if_false, if_true]
  unfold userDelete
  dsimp only
  simp only [show (mkUser db s).id = db.nextId from rfl]
  rw [filter_key_ne_append_singleton (α := UserRec) (k := fun v => v.id) (N := db.nextId)
    hneu rfl]
  rw [filter_key_ne_all (α := DonorProfile) (k := fun q => q.userId) (N := db.nextId) hned]
  rw [filter_key_ne_append_singleton (α := ReceiverProfile) (k := fun q => q.userId)
    (N := db.nextId) hner rfl]
  rfl

-- register on a valid account with role ADMIN: create then compensating delete
theorem register_admin_shape (f : Bool) (db : DB) (s : Submission)
    (hwf : dbWF db) (hv : userFormValid db s = true) (hrole : s.role = .ADMIN) :
    register f db s =
      ({db with nextId := db.nextId + 1}, .renderForm .errorProfileGeneric) := by
  have hneu : ∀ v ∈ db.users, v.id ≠ db.nextId := by
    intro v hv2
    exact Nat.ne_of_lt (hwf.1 v hv2)
  have hned : ∀ p ∈ db.donorProfiles, p.userId ≠ db.nextId := by
    intro p hp
    exact Nat.ne_of_lt (hwf.2.1 p hp)
  have hner : ∀ p ∈ db.receiverProfiles, p.userId ≠ db.nextId := by
    intro p hp
    exact Nat.ne_of_lt (hwf.2.2 p hp)
  unfold register
  simp only [hv, if_true]
  rw [userSave_admin_shape f db s hrole]
  dsimp only
  simp only [hrole, (by decide : (Role.ADMIN == Role.DONOR) = false),
    (by decide : (Role.ADMIN == Role.RECEIVER) = false),
    Bool.false_and, if_false]
  unfold userDelete
  dsimp only
  simp only [show (mkUser db s).id = db.nextId from rfl]
  rw [filter_key_ne_append_singleton (α := UserRec) (k := fun v => v.id) (N := db.nextId)
    hneu rfl]
  rw [filter_key_ne_all (α := DonorProfile) (k := fun q => q.userId) (N := db.nextId) hned]
  rw [filter_key_ne_all (α := ReceiverProfile) (k := fun q => q.userId) (N := db.nextId) hner]
  rfl

-- register on a valid DONOR submission when the re-save reaction faults:
-- the exception escapes and the inserted user stays
theorem register_donor_fault_shape (db : DB) (s : Submission)
    (hwf : dbWF db) (hv : userFormValid db s = true) (hrole : s.role = .DONOR) :
    register true db s =
      (⟨db.nextId + 1, db.users ++ [mkUser db s],
        db.donorProfiles ++ [⟨db.nextId, none, none, none⟩],
        db.receiverProfiles⟩, .crash) := by
  unfold register
  simp only [hv, if_true]
  rw [userSave_donor_fault db s hwf hrole]

-- register on a valid RECEIVER submission when the re-save reaction faults
theorem register_receiver_fault_shape (db : DB) (s : Submission)
    (hwf : dbWF db) (hv : userFormValid db s = true) (hrole : s.role = .RECEIVER) :
    register true db s =
      (⟨db.nextId + 1, db.users ++ [mkUser db s],
        db.donorProfiles,
        db.receiverProfiles ++ [⟨db.nextId, "", "", none, false⟩]⟩, .crash) := by
  unfold register
  simp only [hv, if_true]
  rw [userSave_receiver_fault db s hwf hrole]

theorem filter_key_eq_append_singleton {α : Type} (k : α → Nat) (N : Nat) {l : List α} {a : α}
    (hl : ∀ x ∈ l, k x ≠ N) (ha : k a = N) :
    (l ++ [a]).filter (fun x => k x == N) = [a] := by
  rw [List.filter_append]
  have h1 : l.filter (fun x => k x == N) = [] := by
    apply List.filter_eq_nil_iff.mpr
    intro x hx
    simpa using hl x hx
  simp [h1, List.filter, ha]

theorem filter_key_eq_append_other {α : Type} (k : α → Nat) (N M : Nat) {l : List α} {a : α}
    (ha : k a = N) (hM : M ≠ N) :
    (l ++ [a]).filter (fun x => k x == M) = l.filter (fun x => k x == M) := by
  rw [List.filter_append]
  have h1 : [a].filter (fun x => k x == M) = [] := by
    apply List.filter_eq_nil_iff.mpr
    intro x hx
    rw [List.mem_singleton] at hx
    subst hx
    rw [ha]
    simp only [beq_iff_eq]
    exact fun h => hM h.symm
  simp [h1]

theorem filter_key_eq_nil {α : Type} (k : α → Nat) (N : Nat) {l : List α}
    (hl : ∀ x ∈ l, k x ≠ N) :
    l.filter (fun x => k x == N) = [] := by
  apply List.filter_eq_nil_iff.mpr
  intro x hx
  simpa using hl x hx

-- the invariant only reads the row lists, never the sequence counter
theorem roleProfileInv_bump (db : DB) (n : Nat) (hinv : roleProfileInv db) :
    roleProfileInv ⟨n, db.users, db.donorProfiles, db.receiverProfiles⟩ := by
  intro v hv
  exact hinv v hv

-- inserting a fresh DONOR user together with one fresh profile row keeps the invariant
theorem roleProfileInv_insert_donor (db : DB) (u : UserRec) (p : DonorProfile)
    (hwf : dbWF db) (hinv : roleProfileInv db)
    (hu : u.id = db.nextId) (hur : u.role = .DONOR) (hp : p.userId = db.nextId) :
    roleProfileInv ⟨db.nextId + 1, db.users ++ [u],
                    db.donorProfiles ++ [p], db.receiverProfiles⟩ := by
  intro v hv
  unfold donorProfilesFor receiverProfilesFor
  dsimp only
  rw [List.mem_append] at hv
  rcases hv with hv | hv
  · have hne : v.id ≠ db.nextId := Nat.ne_of_lt (hwf.1 v hv)
    rw [filter_key_eq_append_other (α := DonorProfile) (k := fun q => q.userId)
      db.nextId v.id hp hne]
    exact hinv v hv
  · rw [List.mem_singleton] at hv
    subst hv
    refine ⟨?_, ?_, ?_⟩
    · intro _
      constructor
      · rw [hu, filter_key_eq_append_singleton (α := DonorProfile) (k := fun q => q.userId)
          db.nextId (fun x hx => Nat.ne_of_lt (hwf.2.1 x hx)) hp]
        rfl
      · rw [hu, filter_key_eq_nil (α := ReceiverProfile) (k := fun q => q.userId)
          db.nextId (fun x hx => Nat.ne_of_lt (hwf.2.2 x hx))]
        rfl
    · intro hR
      rw [hur] at hR
      cases hR
    · intro hA
      rw [hur] at hA
      cases hA

-- inserting a fresh RECEIVER user together with one fresh profile row keeps the invariant
theorem roleProfileInv_insert_receiver (db : DB) (u : UserRec) (p : ReceiverProfile)
    (hwf : dbWF db) (hinv : roleProfileInv db)
    (hu : u.id = db.nextId) (hur : u.role = .RECEIVER) (hp : p.userId = db.nextId) :
    roleProfileInv ⟨db.nextId + 1, db.users ++ [u],
                    db.donorProfiles, db.receiverProfiles ++ [p]⟩ := by
  intro v hv
  unfold donorProfilesFor receiverProfilesFor
  dsimp only
  rw [List.mem_append] at hv
  rcases hv with hv | hv
  · have hne : v.id ≠ db.nextId := Nat.ne_of_lt (hwf.1 v hv)
    rw [filter_key_eq_append_other (α := ReceiverProfile) (k := fun q => q.userId)
      db.nextId v.id hp hne]
    exact hinv v hv
  · rw [List.mem_singleton] at hv
    subst hv
    refine ⟨?_, ?_, ?_⟩
    · intro hD
      rw [hur] at hD
      cases hD
    · intro _
      constructor
      · rw [hu, filter_key_eq_append_singleton (α := ReceiverProfile) (k := fun q => q.userId)
          db.nextId (fun x hx => Nat.ne_of_lt (hwf.2.2 x hx)) hp]
        rfl
      · rw [hu, filter_key_eq_nil (α := DonorProfile) (k := fun q => q.userId)
          db.nextId (fun x hx => Nat.ne_of_lt (hwf.2.1 x hx))]
        rfl
    · intro hA
      rw [hur] at hA
      cases hA

-- replacing, by key, rows with a row of the same key preserves every key-count
theorem length_filter_map_update {α : Type} (k : α → Nat) (l : List α) (p : α) (N M : Nat)
    (hp : k p = N) :
    ((l.map (fun q => if k q == N then p else q)).filter (fun q => k q == M)).length
      = (l.filter (fun q => k q == M)).length := by
  induction l with
  | nil => rfl
  | cons a t ih =>
    by_cases h : k a = N
    · have hc : (k a == N) = true := by simp [h]
      simp only [List.map_cons, hc, if_true, List.filter_cons]
      have he : (k p == M) = (k a == M) := by rw [hp, h]
      rw [he]
      by_cases hm : k a = M
      · have hcm : (k a == M) = true := by simp [hm]
        simp only [hcm, if_true, List.length_cons, ih]
      · have hcm : (k a == M) = false := by simp [hm]
        simp only [hcm, Bool.false_eq_true, if_false]
        exact ih
    · have hc : (k a == N) = false := by simp [h]
      simp only [List.map_cons, hc, Bool.false_eq_true, if_false, List.filter_cons]
      by_cases hm : k a = M
      · have hcm : (k a == M) = true := by simp [hm]
        simp only [hcm, if_true, List.length_cons, ih]
      · have hcm : (k a == M) = false := by simp [hm]
        simp only [hcm, Bool.false_eq_true, if_false]
        exact ih

-- one re-save of an existing user never changes any per-user profile count
theorem resaveUser_counts (db : DB) (u : UserRec) (M : Nat) :
    (donorProfilesFor (resaveUser db u) M).length = (donorProfilesFor db M).length ∧
    (receiverProfilesFor (resaveUser db u) M).length = (receiverProfilesFor db M).length := by
  unfold resaveUser userSave create_user_profile save_user_profile
  simp only [Bool.false_eq_true, if_false]
  cases hu : u.role
  case DONOR =>
    simp only [hu]
    cases hf : db.donorProfiles.find? (fun p => p.userId == u.id)
    case none => exact ⟨rfl, rfl⟩
    case some p =>
      have hp : p.userId = u.id := by simpa using List.find?_some hf
      constructor
      · unfold donorProfilesFor
        dsimp only
        exact length_filter_map_update (α := DonorProfile) (k := fun q => q.userId)
          db.donorProfiles p u.id M hp
      · rfl
  case RECEIVER =>
    simp only [hu]
    cases hf : db.receiverProfiles.find? (fun p => p.userId == u.id)
    case none => exact ⟨rfl, rfl⟩
    case some p =>
      have hp : p.userId = u.id := by simpa using List.find?_some hf
      constructor
      · rfl
      · unfold receiverProfilesFor
        dsimp only
        exact length_filter_map_update (α := ReceiverProfile) (k := fun q => q.userId)
          db.receiverProfiles p u.id M hp
  case ADMIN =>
    simp only [hu]
    exact ⟨rfl, rfl⟩

-- account-form validity includes username uniqueness against the store
theorem userFormValid_unique (db : DB) (s : Submission)
    (h : userFormValid db s = true) :
    ∀ v ∈ db.users, v.username ≠ s.username := by
  unfold userFormValid at h
  simp only [Bool.and_eq_true, List.all_eq_true, bne_iff_ne, ne_eq] at h
  intro v hv
  exact h.1.1.1.2 v hv

/-- Claim C1: the role/profile invariant — a DONOR user has exactly one
DonorProfile, a RECEIVER exactly one ReceiverProfile, an ADMIN neither —
is preserved by every run of the register operation (hence holds after
every successful registration), and no persisted User is ever left
without its role-required profile. -/
theorem C1_role_profile_invariant_preserved (f : Bool) (db : DB) (s : Submission)
    (hwf : dbWF db) (hinv : roleProfileInv db) :
    roleProfileInv (register f db s).1 := by
  by_cases hv : userFormValid db s = true
  · cases hr : s.role with
    | DONOR =>
      cases f with
      | false =>
        by_cases hdf : donorFormValid s = true
        · rw [register_donor_success db s hwf hv hr hdf]
          exact roleProfileInv_insert_donor db (mkUser db s) _ hwf hinv rfl hr rfl
        · have hdf2 : donorFormValid s = false := by simpa using hdf
          rw [register_donor_invalid db s hwf hv hr hdf2]
          exact roleProfileInv_bump db _ hinv
      | true =>
        rw [register_donor_fault_shape db s hwf hv hr]
        exact roleProfileInv_insert_donor db (mkUser db s) _ hwf hinv rfl hr rfl
    | RECEIVER =>
      cases f with
      | false =>
        by_cases hrf : receiverFormValid db s = true
        · rw [register_receiver_success db s hwf hv hr hrf]
          exact roleProfileInv_insert_receiver db (mkUser db s) _ hwf hinv rfl hr rfl
        · have hrf2 : receiverFormValid db s = false := by simpa using hrf
          rw [register_receiver_invalid db s hwf hv hr hrf2]
          exact roleProfileInv_bump db _ hinv
      | true =>
        rw [register_receiver_fault_shape db s hwf hv hr]
        exact roleProfileInv_insert_receiver db (mkUser db s) _ hwf hinv rfl hr rfl
    | ADMIN =>
      rw [register_admin_shape f db s hwf hv hr]
      exact roleProfileInv_bump db _ hinv
  · have hv2 : userFormValid db s = false := by simpa using hv
    rw [register_invalid_user f db s hv2]
    exact hinv

/-- Concrete instance of C1: the invariant holds before and after a
registration starting from the empty store. -/
theorem C1_role_profile_invariant_preserved_witness :
    dbWF emptyDB ∧ roleProfileInv emptyDB ∧
      roleProfileInv (register false emptyDB subAlice).1 :=
  ⟨by decide, by decide,
   C1_role_profile_invariant_preserved false emptyDB subAlice (by decide) (by decide)⟩

/-- Claim C2: when the account fields validate but the role-specific
profile form does not, register rolls back completely — afterwards the
user table and both profile tables are exactly as before, no user with
the submitted username exists, and the profile error message of the role is
surfaced. -/
theorem C2_profile_invalid_full_rollback (db : DB) (s : Submission)
    (hwf : dbWF db) (hv : userFormValid db s = true)
    (hbad : (s.role = .DONOR ∧ donorFormValid s = false) ∨
            (s.role = .RECEIVER ∧ receiverFormValid db s = false)) :
    (register false db s).1.users = db.users ∧
    (register false db s).1.donorProfiles = db.donorProfiles ∧
    (register false db s).1.receiverProfiles = db.receiverProfiles ∧
    (∀ v ∈ (register false db s).1.users, v.username ≠ s.username) ∧
    (s.role = .DONOR → (register false db s).2 = .renderForm .errorDonorProfile) ∧
    (s.role = .RECEIVER → (register false db s).2 = .renderForm .errorReceiverProfile) := by
  rcases hbad with ⟨hr, hf⟩ | ⟨hr, hf⟩
  · rw [register_donor_invalid db s hwf hv hr hf]
    refine ⟨rfl, rfl, rfl, userFormValid_unique db s hv, fun _ => rfl, fun h2 => ?_⟩
    rw [hr] at h2
    exact Role.noConfusion h2
  · rw [register_receiver_invalid db s hwf hv hr hf]
    refine ⟨rfl, rfl, rfl, userFormValid_unique db s hv, fun h2 => ?_, fun _ => rfl⟩
    rw [hr] at h2
    exact Role.noConfusion h2

/-- Concrete instance of C2 (spec §8 scenario): receiver submission with
empty ngo_name leaves no user behind and surfaces the receiver profile
error. -/
theorem C2_profile_invalid_full_rollback_witness :
    (register false emptyDB subNgoBad).1.users = emptyDB.users ∧
    (register false emptyDB subNgoBad).2 = .renderForm .errorReceiverProfile :=
  ⟨(C2_profile_invalid_full_rollback emptyDB subNgoBad (by decide) (by decide)
      (Or.inr ⟨rfl, by decide⟩)).1,
   (C2_profile_invalid_full_rollback emptyDB subNgoBad (by decide) (by decide)
      (Or.inr ⟨rfl, by decide⟩)).2.2.2.2.2 rfl⟩

/-- Claim C3: every valid DONOR submission succeeds, leaving a DONOR user
with exactly one DonorProfile row carrying the submitted first_name,
last_name and phone_number. -/
theorem C3_valid_donor_registration (db : DB) (s : Submission)
    (hwf : dbWF db) (hv : userFormValid db s = true)
    (hrole : s.role = .DONOR) (hdf : donorFormValid s = true) :
    (register false db s).2 = .redirectIndex .successDonor ∧
    ∃ u ∈ (register false db s).1.users,
      u.username = s.username ∧ u.role = .DONOR ∧
      donorProfilesFor (register false db s).1 u.id =
        [⟨u.id, s.first_name, s.last_name, s.phone_number⟩] := by
  rw [register_donor_success db s hwf hv hrole hdf]
  refine ⟨rfl, mkUser db s, by simp, rfl, hrole, ?_⟩
  unfold donorProfilesFor
  dsimp only
  simp only [show (mkUser db s).id = db.nextId from rfl]
  rw [filter_key_eq_append_singleton (α := DonorProfile) (k := fun q => q.userId)
    db.nextId (fun x hx => Nat.ne_of_lt (hwf.2.1 x hx)) rfl]

/-- Concrete instance of C3 (spec §8 scenario): registering alice as a
donor yields success and one DonorProfile with first_name Alice. -/
theorem C3_valid_donor_registration_witness :
    (register false emptyDB subAlice).2 = .redirectIndex .successDonor ∧
    donorProfilesFor (register false emptyDB subAlice).1 0 =
      [⟨0, some "Alice", none, none⟩] :=
  ⟨(C3_valid_donor_registration emptyDB subAlice (by decide) (by decide) rfl
      (by decide)).1,
   by decide⟩

/-- Claim C4: every valid RECEIVER submission succeeds, leaving a
RECEIVER user with exactly one ReceiverProfile row whose is_verified
flag is false. -/
theorem C4_valid_receiver_registration (db : DB) (s : Submission)
    (hwf : dbWF db) (hv : userFormValid db s = true)
    (hrole : s.role = .RECEIVER) (hrf : receiverFormValid db s = true) :
    (register false db s).2 = .redirectIndex .successReceiver ∧
    ∃ u ∈ (register false db s).1.users,
      u.username = s.username ∧ u.role = .RECEIVER ∧
      receiverProfilesFor (register false db s).1 u.id =
        [⟨u.id, s.ngo_name, s.registration_number, s.phone_number, false⟩] := by
  rw [register_receiver_success db s hwf hv hrole hrf]
  refine ⟨rfl, mkUser db s, by simp, rfl, hrole, ?_⟩
  unfold receiverProfilesFor
  dsimp only
  simp only [show (mkUser db s).id = db.nextId from rfl]
  rw [filter_key_eq_append_singleton (α := ReceiverProfile) (k := fun q => q.userId)
    db.nextId (fun x hx => Nat.ne_of_lt (hwf.2.2 x hx)) rfl]

/-- Concrete instance of C4: registering ngo1 as a receiver yields one
unverified ReceiverProfile. -/
theorem C4_valid_receiver_registration_witness :
    (register false emptyDB subNgo1).2 = .redirectIndex .successReceiver ∧
    receiverProfilesFor (register false emptyDB subNgo1).1 0 =
      [⟨0, "Helping Hands", "REG1", none, false⟩] :=
  ⟨(C4_valid_receiver_registration emptyDB subNgo1 (by decide) (by decide) rfl
      (by decide)).1,
   by decide⟩

/-- Claim C5 as stated is false on this code: it asserts that a
persistence failure in the re-save reaction propagates to the Registrar,
whose rollback logic catches it and deletes the just-created User.  At
this concrete input the injected re-save failure instead escapes the
register operation uncaught (the caught path would have re-rendered with
the unexpected-error message, views.py 67-71) and the just-created User
row survives undeleted. -/
theorem C5_counterexample_failure_escapes :
    (register true emptyDB subAlice).2 = .crash ∧
    (register true emptyDB subAlice).2 ≠ .renderForm .errorUnexpected ∧
    (register true emptyDB subAlice).1.users ≠ [] := by decide

/-- Claim C5 (amended): a persistence failure in the Profile
re-save reaction of the Provisioner other than profile-not-found is indeed
not swallowed — it propagates out of the User save carrying the already
committed User row — but because that save runs before the try block of
the Registrar (views.py 34 vs 37), the Registrar does not catch it: the
exception escapes the register operation and the just-created User is
not deleted. -/
theorem C5_resave_failure_not_caught (db : DB) (s : Submission)
    (hwf : dbWF db) (hv : userFormValid db s = true) (hna : s.role ≠ .ADMIN) :
    (∃ d : DB, userSave true db (mkUser db s) true = .error d ∧
      mkUser db s ∈ d.users) ∧
    (register true db s).2 = .crash ∧
    mkUser db s ∈ (register true db s).1.users := by
  cases hr : s.role with
  | DONOR =>
    refine ⟨⟨_, userSave_donor_fault db s hwf hr, by simp⟩, ?_, ?_⟩
    · rw [register_donor_fault_shape db s hwf hv hr]
    · rw [register_donor_fault_shape db s hwf hv hr]
      simp
  | RECEIVER =>
    refine ⟨⟨_, userSave_receiver_fault db s hwf hr, by simp⟩, ?_, ?_⟩
    · rw [register_receiver_fault_shape db s hwf hv hr]
    · rw [register_receiver_fault_shape db s hwf hv hr]
      simp
  | ADMIN => exact absurd hr hna

/-- Concrete instance of the amended C5 at the alice submission. -/
theorem C5_resave_failure_not_caught_witness :
    (register true emptyDB subAlice).2 = .crash ∧
    mkUser emptyDB subAlice ∈ (register true emptyDB subAlice).1.users :=
  (C5_resave_failure_not_caught emptyDB subAlice (by decide) (by decide) (by decide)).2

/-- Claim C7: the re-save reaction is idempotent on profiles — any
number of further saves of an already-persisted user leaves every
per-user DonorProfile and ReceiverProfile row count unchanged, so a
second profile is never created for the same user. -/
theorem C7_resave_never_creates_second_profile (n : Nat) (db : DB) (u : UserRec) (M : Nat) :
    (donorProfilesFor (resaveUserN n db u) M).length = (donorProfilesFor db M).length ∧
    (receiverProfilesFor (resaveUserN n db u) M).length = (receiverProfilesFor db M).length := by
  induction n generalizing db with
  | zero => exact ⟨rfl, rfl⟩
  | succ m ih =>
    have h1 := resaveUser_counts db u M
    have h2 := ih (resaveUser db u)
    unfold resaveUserN
    exact ⟨h2.1.trans h1.1, h2.2.trans h1.2⟩

/-- Claim C8: an invalid account form means no persistent side effect at
all — the store is returned untouched — and the account error message is
rendered. -/
theorem C8_account_invalid_no_side_effects (f : Bool) (db : DB) (s : Submission)
    (hv : userFormValid db s = false) :
    register f db s = (db, .renderForm .errorAccount) :=
  register_invalid_user f db s hv

/-- Concrete instance of C8: a password mismatch leaves the empty store
untouched. -/
theorem C8_account_invalid_no_side_effects_witness :
    register false emptyDB subBadPassword = (emptyDB, .renderForm .errorAccount) :=
  C8_account_invalid_no_side_effects false emptyDB subBadPassword (by decide)

/-- Claim C9: a valid ADMIN submission first persists the User (the save
succeeds and the row is present in the saved state), then the register
operation deletes it and reports the generic profile error; the final
store keeps no new user, so no ADMIN user is ever persisted by
registration. -/
theorem C9_admin_created_then_deleted (db : DB) (s : Submission)
    (hwf : dbWF db) (hv : userFormValid db s = true) (hrole : s.role = .ADMIN) :
    (∃ d : DB, userSave false db (mkUser db s) true = .ok d ∧
      mkUser db s ∈ d.users) ∧
    register false db s =
      ({db with nextId := db.nextId + 1}, .renderForm .errorProfileGeneric) := by
  constructor
  · exact ⟨_, userSave_admin_shape false db s hrole, by simp⟩
  · exact register_admin_shape false db s hwf hv hrole

/-- Concrete instance of C9 at the boss submission. -/
theorem C9_admin_created_then_deleted_witness :
    register false emptyDB subAdmin =
      ({emptyDB with nextId := emptyDB.nextId + 1}, .renderForm .errorProfileGeneric) :=
  (C9_admin_created_then_deleted emptyDB subAdmin (by decide) (by decide) (by decide)).2

/-- Claim C10 is right and the code is wrong: the stored value of the
REJECTED member of DonationRequest.Status is the misspelling REJECTJED
(models.py 120), while its member name and human label Rejected show the
intended value REJECTED; the stored value set is therefore not
\x7bPENDING, ACCEPTED, REJECTED, COLLECTED\x7d. -/
theorem C10_donation_request_status_values :
    DonationRequestStatus.value .REJECTED = "REJECTJED" ∧
    DonationRequestStatus.label .REJECTED = "Rejected" ∧
    donationRequestStatusValues ≠ ["PENDING", "ACCEPTED", "REJECTED", "COLLECTED"] ∧
    donationRequestStatusValues = ["PENDING", "ACCEPTED", "REJECTJED", "COLLECTED"] := by
  refine ⟨rfl, rfl, ?_, rfl⟩
  decide

/-- Claim C6: after a successful RECEIVER registration, a second RECEIVER
submission carrying the same registration_number fails with the receiver
profile error, the store (users and both profile tables) is exactly as
after the first registration, and the profile row of the first user with that
registration number is still present. -/
theorem C6_duplicate_registration_number (db : DB) (s t : Submission)
    (hwf : dbWF db) (hv1 : userFormValid db s = true)
    (hr1 : s.role = .RECEIVER) (hf1 : receiverFormValid db s = true)
    (hv2 : userFormValid (register false db s).1 t = true)
    (hr2 : t.role = .RECEIVER)
    (heq : t.registration_number = s.registration_number) :
    (register false (register false db s).1 t).2 = .renderForm .errorReceiverProfile ∧
    (register false (register false db s).1 t).1.users =
      (register false db s).1.users ∧
    (register false (register false db s).1 t).1.donorProfiles =
      (register false db s).1.donorProfiles ∧
    (register false (register false db s).1 t).1.receiverProfiles =
      (register false db s).1.receiverProfiles ∧
    ∃ p ∈ (register false (register false db s).1 t).1.receiverProfiles,
      p.registration_number = s.registration_number ∧ p.userId = (mkUser db s).id := by
  rw [register_receiver_success db s hwf hv1 hr1 hf1] at hv2 ⊢
  dsimp only at hv2 ⊢
  set d : DB :=
    ⟨db.nextId + 1, db.users ++ [mkUser db s], db.donorProfiles,
      db.receiverProfiles ++
        [⟨db.nextId, s.ngo_name, s.registration_number, s.phone_number, false⟩]⟩
    with hd
  have hwf1 : dbWF d := by
    rw [hd]
    refine ⟨?_, ?_, ?_⟩
    · intro v hv
      rw [List.mem_append] at hv
      rcases hv with h | h
      · exact Nat.lt_succ_of_lt (hwf.1 v h)
      · rw [List.mem_singleton] at h
        subst h
        exact Nat.lt_succ_self db.nextId
    · intro p hp
      exact Nat.lt_succ_of_lt (hwf.2.1 p hp)
    · intro p hp
      rw [List.mem_append] at hp
      rcases hp with h | h
      · exact Nat.lt_succ_of_lt (hwf.2.2 p h)
      · rw [List.mem_singleton] at h
        subst h
        exact Nat.lt_succ_self db.nextId
  have hf2 : receiverFormValid d t = false := by
    have hall : (db.receiverProfiles ++
        [(⟨db.nextId, s.ngo_name, s.registration_number, s.phone_number, false⟩ :
          ReceiverProfile)]).all
        (fun p => p.registration_number != t.registration_number) = false := by
      apply List.all_eq_false.mpr
      refine ⟨⟨db.nextId, s.ngo_name, s.registration_number, s.phone_number, false⟩,
        by simp, ?_⟩
      dsimp only
      rw [heq]
      simp
    rw [hd]
    unfold receiverFormValid
    dsimp only
    rw [hall, Bool.and_false]
  rw [register_receiver_invalid d t hwf1 hv2 hr2 hf2]
  refine ⟨rfl, rfl, rfl, rfl,
    ⟨db.nextId, s.ngo_name, s.registration_number, s.phone_number, false⟩, ?_, rfl, rfl⟩
  show _ ∈ d.receiverProfiles
  rw [hd]
  simp

/-- Concrete instance of C6: ngo2 reusing REG1 after ngo1 registered it. -/
theorem C6_duplicate_registration_number_witness :
    (register false (register false emptyDB subNgo1).1 subNgo2).2 =
      .renderForm .errorReceiverProfile ∧
    (register false (register false emptyDB subNgo1).1 subNgo2).1.users =
      (register false emptyDB subNgo1).1.users :=
  ⟨(C6_duplicate_registration_number emptyDB subNgo1 subNgo2 (by decide) (by decide)
      rfl (by decide) (by decide) rfl rfl).1,
   (C6_duplicate_registration_number emptyDB subNgo1 subNgo2 (by decide) (by decide)
      rfl (by decide) (by decide) rfl rfl).2.1⟩

end DoDonation
